import Mathlib

/-!
Verification of the recommendation engine in `recommend.py`
(`ImprovedRecommendationSystem`).

Modelling conventions:
* Python floats are modelled as exact rationals (`ℚ`); the literal weights
  0.4, 0.6, 0.3 become 2/5, 3/5, 3/10.
* The repository calls `fetch_books_enhanced` and
  `fetch_user_comprehensive_activity` are passed in as `Except String _`
  values: `.error` models the psycopg2/connection exception that
  `get_pg_conn` re-raises, which the broad `except` in `get_recommendations`
  converts into an error payload.
* `create_enhanced_features` followed by `cosine_similarity` is abstracted
  as a `FeatureStage`: a function from the working rows to either a raised
  exception (the TF-IDF fit itself raises ValueError on small catalogs or
  an empty vocabulary, see `FeatureStage`) or a similarity matrix
  `S : Nat → Nat → ℚ` indexed positionally by rows of the working
  DataFrame (this is exactly how numpy indexes `cosine_sim`).  Theorems
  quantify over the stage (or, for the scorer itself, over `S`), so they
  hold for the actual sklearn pipeline in particular.
* The pandas DataFrame keeps its original integer index labels after the
  boolean filter `books_df[books_df['id'] != current_book_id]` (the code
  never calls reset_index), so the working frame is modelled as a list of
  (label, book) pairs.  `matching_books.index[0]` returns the *label*,
  while `cosine_sim[...]` and `books_df.iloc[...]` are *positional*; the
  model keeps this distinction.
* numpy fancy indexing with an out-of-range row label raises IndexError;
  the content stage therefore returns `Except String _`.
-/

/-- A row of the `books` table as selected by `fetch_books_enhanced`
(likes, dislikes, averageRating already COALESCEd to 0 by the query). -/
structure Book where
  id : Int
  title : String
  author : String
  description : String
  genres : String
  cover : String
  likes : ℚ
  dislikes : ℚ
  avg_rating : ℚ
deriving DecidableEq, Inhabited

/-- One output record: a book row together with the score attached to it
(`similarity_score` on the content path, `popularity_score` on the
fallback path). -/
structure Recommendation where
  book : Book
  score : ℚ
deriving DecidableEq

/-- A row of the likes join in `fetch_user_comprehensive_activity`:
`(id, title, author, description, genres, cover, action, avg_rating)`. -/
structure LikeRow where
  id : Int
  title : String
  author : String
  description : String
  genres : String
  cover : String
  action : String
  avg_rating : ℚ
deriving DecidableEq

/-- A row of the reviews join:
`(id, title, author, description, genres, cover, rating, avg_rating)`. -/
structure ReviewRow where
  id : Int
  title : String
  author : String
  description : String
  genres : String
  cover : String
  rating : ℚ
  avg_rating : ℚ
deriving DecidableEq

/-- The `users` profile row `(favoriteGenres, favoriteAuthors, favoriteBooks)`. -/
structure Prefs where
  favoriteGenres : Option String
  favoriteAuthors : Option String
  favoriteBooks : Option String
deriving DecidableEq

/-- The 3-tuple returned by `fetch_user_comprehensive_activity`:
`(likes_data, reviews_data, profile_data)`. -/
structure Activity where
  likes_data : List LikeRow
  reviews_data : List ReviewRow
  profile_data : Option Prefs
deriving DecidableEq

/-- The dict built per liked/disliked row inside `calculate_user_profile`. -/
structure BookInfo where
  id : Int
  title : String
  author : String
  description : String
  genres : String
  action : String
  avg_rating : ℚ
deriving DecidableEq

/-- The dict built per review row inside `calculate_user_profile`. -/
structure RatedInfo where
  id : Int
  title : String
  author : String
  description : String
  genres : String
  rating : ℚ
  avg_rating : ℚ
deriving DecidableEq

/-- The dict returned by `calculate_user_profile`. -/
structure UserProfile where
  liked_books : List BookInfo
  disliked_books : List BookInfo
  rated_books : List RatedInfo
  profile_preferences : Option Prefs
deriving DecidableEq

/-- The payload of `get_recommendations`: the `recommendations` list and
the optional `error` field added by the broad exception handler. -/
structure RecResult where
  recommendations : List Recommendation
  error : Option String
deriving DecidableEq

/-- Python truthiness of the value bound to `user_activity`: it is always
the 3-tuple `(likes_data, reviews_data, profile_data)`, and a non-empty
tuple is truthy in Python regardless of its components, so
`not user_activity` is always `False`. -/
def activityTruthy (_ : Activity) : Bool := true

/-- The `book_info` dict constructed from a likes-join row. -/
def likeRowInfo (r : LikeRow) : BookInfo :=
  ⟨r.id, r.title, r.author, r.description, r.genres, r.action, r.avg_rating⟩

/-- `calculate_user_profile`: partitions the likes rows by
`book_data[6] == 'like'`, collects review rows, and passes the stored
preferences through.  The `if not user_activity: return None` guard is
modelled by `activityTruthy` (it can never fire, see `activityTruthy`). -/
def calculate_user_profile (user_activity : Activity) : Option UserProfile :=
  if ¬ activityTruthy user_activity then none
  else
    some
      { liked_books :=
          (user_activity.likes_data.filter (fun r => r.action == "like")).map likeRowInfo
        disliked_books :=
          (user_activity.likes_data.filter (fun r => ¬ (r.action == "like"))).map likeRowInfo
        rated_books :=
          user_activity.reviews_data.map
            (fun r => ⟨r.id, r.title, r.author, r.description, r.genres, r.rating, r.avg_rating⟩)
        profile_preferences := user_activity.profile_data }

/-- DataFrame rows labelled from `k` upward (pandas RangeIndex labels). -/
def indexFrom (k : Nat) : List Book → List (Nat × Book)
  | [] => []
  | b :: bs => (k, b) :: indexFrom (k + 1) bs

/-- `pd.DataFrame(books_data, ...)`: rows labelled 0,1,2,…. -/
def indexedCatalog (books : List Book) : List (Nat × Book) := indexFrom 0 books

/-- Lines 311–313: `if current_book_id: books_df =
books_df[books_df['id'] != int(current_book_id)]`.  Python truthiness of
an int: `0` is falsy, so a supplied id of 0 does not filter.  The boolean
filter keeps the original index labels. -/
def applyExclude (books : List Book) : Option Int → List (Nat × Book)
  | none => indexedCatalog books
  | some v =>
      if v = 0 then indexedCatalog books
      else (indexedCatalog books).filter (fun x => decide (x.2.id ≠ v))

/-- `np.mean(cosine_sim[idxs], axis=0)` evaluated at column `j`:
the arithmetic mean of the rows selected by `idxs`. -/
def meanSim (S : Nat → Nat → ℚ) (idxs : List Nat) (j : Nat) : ℚ :=
  ((idxs.map (fun i => S i j)).sum) / (idxs.length : ℚ)

/-- The order produced by `sorted(sim_scores, key=lambda x: x[1],
reverse=True)`: score strictly greater first; Python's sort is stable, so
equal scores keep enumeration (index) order. -/
def simRank (p q : Nat × ℚ) : Prop :=
  q.2 < p.2 ∨ (p.2 = q.2 ∧ p.1 ≤ q.1)

instance : DecidableRel simRank := fun p q =>
  decidable_of_iff (q.2 < p.2 ∨ (p.2 = q.2 ∧ p.1 ≤ q.1)) Iff.rfl

/-- The collection loop at the end of `get_content_based_recommendations`:
walk the ranked `(idx, score)` pairs, skip rows whose id is in
`interacted_ids`, append the row dict plus `similarity_score`, and break
as soon as `len(recommendations) >= n_recommendations` holds after an
append (note: with `n = 0` the loop still appends one passing item before
the break test fires). -/
def collectRecs (books_df : List (Nat × Book)) (interacted_ids : List Int) (n : Nat) :
    List (Nat × ℚ) → List Recommendation → List Recommendation
  | [], acc => acc
  | p :: rest, acc =>
    if (books_df.getD p.1 default).2.id ∈ interacted_ids then
      collectRecs books_df interacted_ids n rest acc
    else if n ≤ (acc ++ [Recommendation.mk (books_df.getD p.1 default).2 p.2]).length then
      acc ++ [Recommendation.mk (books_df.getD p.1 default).2 p.2]
    else collectRecs books_df interacted_ids n rest
      (acc ++ [Recommendation.mk (books_df.getD p.1 default).2 p.2])

/-- The list of row *labels* selected by the
`books_df[books_df['id'] == book['id']].index[0]` loop over a list of
profile entries (entries with no matching row are skipped). -/
def contentLabels (books_df : List (Nat × Book)) (bs : List BookInfo) : List Nat :=
  bs.filterMap (fun lb => (books_df.find? (fun x => x.2.id == lb.id)).map (fun x => x.1))

/-- `final_scores` of the content stage at column `j`: liked affinity,
minus `0.3 ×` disliked affinity when `disliked_indices` is non-empty
(rows are selected by the pandas *labels*, see `contentLabels`). -/
def contentScores (S : Nat → Nat → ℚ) (user_profile : UserProfile)
    (books_df : List (Nat × Book)) (j : Nat) : ℚ :=
  if contentLabels books_df user_profile.disliked_books ≠ [] then
    meanSim S (contentLabels books_df user_profile.liked_books) j
      - (3/10) * meanSim S (contentLabels books_df user_profile.disliked_books) j
  else meanSim S (contentLabels books_df user_profile.liked_books) j

/-- `get_content_based_recommendations`.  `books_df` carries pandas index
labels; `matching_books.index[0]` (modelled with `find?`) yields a label,
while `cosine_sim` (the matrix `S`) and `books_df.iloc` are positional.
numpy raises IndexError when a selected label is outside the row range of
the (filtered) similarity matrix. -/
def get_content_based_recommendations (S : Nat → Nat → ℚ) (user_profile : UserProfile)
    (books_df : List (Nat × Book)) (n_recommendations : Nat) :
    Except String (List Recommendation) :=
  if user_profile.liked_books = [] then .ok []
  else if contentLabels books_df user_profile.liked_books = [] then .ok []
  else if (contentLabels books_df user_profile.liked_books).any
      (fun i => books_df.length ≤ i) then .error "IndexError"
  else if contentLabels books_df user_profile.disliked_books ≠ [] ∧
      (contentLabels books_df user_profile.disliked_books).any
        (fun i => books_df.length ≤ i) = true then .error "IndexError"
  else
    .ok (collectRecs books_df
      ((user_profile.liked_books ++ user_profile.disliked_books).map (fun b => b.id))
      n_recommendations
      (List.insertionSort simRank
        ((List.range books_df.length).map
          (fun j => (j, contentScores S user_profile books_df j))))
      [])

/-- `popularity_score = likes * 0.4 + avg_rating * likes * 0.6`. -/
def popularity_score (b : Book) : ℚ :=
  b.likes * (2/5) + b.avg_rating * b.likes * (3/5)

/-- Rows of `books_df` paired with their running position, for the
`nlargest` tie-break (ties keep first occurrence / original order). -/
def popIndexed (books : List Book) : List (Nat × Book) :=
  (List.range books.length).map (fun i => (i, books.getD i default))

/-- The `nlargest(n, 'popularity_score')` order: higher score first, ties
broken by original row order. -/
def popRank (p q : Nat × Book) : Prop :=
  popularity_score q.2 < popularity_score p.2 ∨
    (popularity_score p.2 = popularity_score q.2 ∧ p.1 ≤ q.1)

instance : DecidableRel popRank := fun p q =>
  decidable_of_iff (popularity_score q.2 < popularity_score p.2 ∨
    (popularity_score p.2 = popularity_score q.2 ∧ p.1 ≤ q.1)) Iff.rfl

/-- The fully ranked catalog used by the popularity fallback. -/
def popRanked (books : List Book) : List (Nat × Book) :=
  List.insertionSort popRank (popIndexed books)

/-- `get_popularity_based_recommendations`: score every row, take the `n`
largest (ties by original order), return them as records. -/
def get_popularity_based_recommendations (books : List Book) (n_recommendations : Nat) :
    List Recommendation :=
  ((popRanked books).take n_recommendations).map (fun p => ⟨p.2, popularity_score p.2⟩)

/-- The filtering walk of `diversify_recommendations`, with the running
per-author count (`author_count`) as a function.  `maxPA` is the
`max_per_author` bound, constant through the loop. -/
def diversifyGo (maxPA : Nat) : List Recommendation → (String → Nat) → List Recommendation
  | [], _ => []
  | b :: rest, cnt =>
    let author := b.book.author
    if cnt author < maxPA then
      b :: diversifyGo maxPA rest (fun a => if a = author then cnt author + 1 else cnt a)
    else diversifyGo maxPA rest cnt

/-- `diversify_recommendations` with the default `diversity_factor=0.3`:
lists of length ≤ 3 are returned unchanged; otherwise each author is
limited to `max(1, int(len(recommendations) * 0.3))` occurrences, where
`len(recommendations)` is the *input* list length (`int` truncation of a
non-negative value is floor, i.e. `3 * len / 10` in exact arithmetic). -/
def diversify_recommendations (recommendations : List Recommendation) : List Recommendation :=
  if recommendations.length ≤ 3 then recommendations
  else diversifyGo (max 1 (3 * recommendations.length / 10)) recommendations (fun _ => 0)

/-- The outcome of `create_enhanced_features` followed by
`cosine_similarity` on the working rows: either a raised exception or a
positional similarity matrix.  The TF-IDF fit itself can raise — with the
hard-coded `min_df=2` and `max_df=0.8`, sklearn raises ValueError
(`max_df corresponds to < documents than min_df`) whenever the working
catalog has at most 2 rows, since `0.8 × n < 2`, and also when no term
survives the document-frequency pruning (empty vocabulary).  Theorems
quantify over this function, so they hold for the actual sklearn
pipeline in particular. -/
abbrev FeatureStage := List Book → Except String (Nat → Nat → ℚ)

/-- Lines 320–340 of `get_recommendations`, the active-profile branch:
`create_enhanced_features` on the working rows (which may raise, see
`FeatureStage`), then content-based scoring (doubled count),
diversification, and popularity top-up of `n - len(recs)` items skipping
ids already present. -/
def activeBranch (F : FeatureStage) (p : UserProfile) (books_df : List (Nat × Book))
    (n_recommendations : Nat) : Except String (List Recommendation) :=
  match F (books_df.map (fun x => x.2)) with
  | .error e => .error e
  | .ok S =>
    match get_content_based_recommendations S p books_df (n_recommendations * 2) with
    | .error e => .error e
    | .ok cs =>
      let recs := diversify_recommendations cs
      .ok (if recs.length < n_recommendations then
        let popular := get_popularity_based_recommendations
          (books_df.map (fun x => x.2)) (n_recommendations - recs.length)
        let existing_ids := recs.map (fun r => r.book.id)
        recs ++ popular.filter (fun pr => decide (pr.book.id ∉ existing_ids))
      else recs)

/-- `get_recommendations(user_id, current_book_id, n_recommendations)`.
The two repository fetches arrive as `Except` values; any raised
exception (repository failure, the sklearn ValueError from the feature
builder, or the numpy IndexError from the content stage) is caught by
the broad handler and becomes an error payload with an empty list.  All
successful paths truncate to `n_recommendations`. -/
def get_recommendations (F : FeatureStage) (fetch_books : Except String (List Book))
    (fetch_activity : Except String Activity) (current_book_id : Option Int)
    (n_recommendations : Nat) : RecResult :=
  match fetch_books with
  | .error e => { recommendations := [], error := some e }
  | .ok books_data =>
    if books_data.isEmpty then { recommendations := [], error := none }
    else
      let books_df := applyExclude books_data current_book_id
      match fetch_activity with
      | .error e => { recommendations := [], error := some e }
      | .ok ua =>
        match calculate_user_profile ua with
        | some p =>
          if p.liked_books ≠ [] ∨ p.rated_books ≠ [] then
            match activeBranch F p books_df n_recommendations with
            | .error e => { recommendations := [], error := some e }
            | .ok recs => { recommendations := recs.take n_recommendations, error := none }
          else
            { recommendations :=
                (get_popularity_based_recommendations (books_df.map (fun x => x.2))
                  n_recommendations).take n_recommendations
              error := none }
        | none =>
          { recommendations :=
              (get_popularity_based_recommendations (books_df.map (fun x => x.2))
                n_recommendations).take n_recommendations
            error := none }

/-! Concrete inputs used by the counterexamples and witnesses below. -/

/-- Demo book row constructor. -/
def mkBook (i : Int) (auth : String) (lk rat : ℚ) : Book :=
  { id := i, title := "t", author := auth, description := "alpha story", genres := "g",
    cover := "", likes := lk, dislikes := 0, avg_rating := rat }

/-- A likes-join row for book `i` with the given action. -/
def mkLikeRow (i : Int) (act : String) : LikeRow :=
  { id := i, title := "t", author := "a", description := "alpha story", genres := "g",
    cover := "", action := act, avg_rating := 0 }

/-- The zero similarity matrix (the cold-start paths never read it). -/
def S0 : Nat → Nat → ℚ := fun _ _ => 0

/-- A feature stage that succeeds with the zero matrix. -/
def F0 : FeatureStage := fun _ => .ok S0

/-- A feature stage that raises: models the deterministic sklearn
ValueError of `TfidfVectorizer(min_df=2, max_df=0.8)` on a working
catalog of at most 2 rows (`0.8 × n < 2`). -/
def Fraise : FeatureStage := fun _ => .error "ValueError"

/-- The ids of the disliked books in the profile computed for an activity
(empty when the profile is absent). -/
def profileDislikedIds (ua : Activity) : List Int :=
  match calculate_user_profile ua with
  | none => []
  | some p => p.disliked_books.map (fun b => b.id)

/-- Position of the first row of `books` whose id is `i`, counting from
`k`. -/
def rowOfAux (i : Int) : List Book → Nat → Option Nat
  | [], _ => none
  | b :: bs, k => if b.id = i then some k else rowOfAux i bs (k + 1)

/-- Position (not pandas label) of the first row of `books` whose id is
`i`. -/
def rowOf (books : List Book) (i : Int) : Option Nat := rowOfAux i books 0

/-- Modelled from the spec wording of the claim (not from the code): the
content score where liked-affinity is the mean similarity to the *liked
items' own feature rows* (their positions in the working catalog), and
likewise for disliked-affinity.  To be compared with `contentScores`,
which uses the pandas index labels as the code does. -/
def spec_content_score (S : Nat → Nat → ℚ) (p : UserProfile) (books : List Book)
    (j : Nat) : ℚ :=
  if p.disliked_books.filterMap (fun b => rowOf books b.id) ≠ [] then
    meanSim S (p.liked_books.filterMap (fun b => rowOf books b.id)) j
      - (3/10) * meanSim S (p.disliked_books.filterMap (fun b => rowOf books b.id)) j
  else meanSim S (p.liked_books.filterMap (fun b => rowOf books b.id)) j

instance : IsTotal (Nat × Book) popRank :=
  ⟨fun p q => by
    unfold popRank
    rcases lt_trichotomy (popularity_score p.2) (popularity_score q.2) with h | h | h
    · exact Or.inr (Or.inl h)
    · rcases Nat.le_total p.1 q.1 with hn | hn
      · exact Or.inl (Or.inr ⟨h, hn⟩)
      · exact Or.inr (Or.inr ⟨h.symm, hn⟩)
    · exact Or.inl (Or.inl h)⟩

instance : IsTrans (Nat × Book) popRank :=
  ⟨fun p q s hpq hqs => by
    unfold popRank at *
    rcases hpq with h1 | ⟨h1, h1n⟩ <;> rcases hqs with h2 | ⟨h2, h2n⟩
    · exact Or.inl (h2.trans h1)
    · exact Or.inl (h2 ▸ h1)
    · exact Or.inl (h1 ▸ h2)
    · exact Or.inr ⟨h1.trans h2, h1n.trans h2n⟩⟩

/-- The profile of a user who liked exactly the book with id 1. -/
def demoProfile : UserProfile := ⟨[likeRowInfo (mkLikeRow 1 "like")], [], [], none⟩

/-- Ten distinct books, all by the same author. -/
def tenSameAuthor : List Recommendation :=
  (List.range 10).map (fun i => Recommendation.mk (mkBook (Int.ofNat i + 100) "X" 0 0) 0)

/-- Catalog for the C6 counterexample: four books; excluding id 2 makes
pandas labels diverge from matrix row positions. -/
def books6 : List Book :=
  [mkBook 1 "A" 1 0, mkBook 2 "B" 2 0, mkBook 3 "C" 3 0, mkBook 4 "D" 4 0]

/-- Profile for the C6 counterexample: liked exactly the book with id 3. -/
def p6 : UserProfile := ⟨[likeRowInfo (mkLikeRow 3 "like")], [], [], none⟩

/-- A similarity matrix whose rows are pairwise distinguishable. -/
def S6 : Nat → Nat → ℚ := fun i j => ((10 * i + j : Nat) : ℚ)

/-- Catalog for the C9 counterexample. -/
def books9 : List Book :=
  [mkBook 1 "A1" 50 0, mkBook 2 "P" 100 0, mkBook 3 "Q" 0 0,
    mkBook 4 "P" 10 0, mkBook 5 "P" 0 0, mkBook 6 "Q" 0 0]

/-- Activity for the C9 counterexample: liked exactly the book with id 1. -/
def act9 : Activity := ⟨[mkLikeRow 1 "like"], [], none⟩

/-- Similarity matrix for the C9 counterexample: row 0 (the liked book)
ranks the catalog in original order. -/
def S9 : Nat → Nat → ℚ := fun i j => if i = 0 then (10 : ℚ) - (j : ℚ) else 0

/-- A feature stage that succeeds with `S9`. -/
def F9 : FeatureStage := fun _ => .ok S9

/-- The profile computed for `act9`. -/
def p9 : UserProfile := ⟨[likeRowInfo (mkLikeRow 1 "like")], [], [], none⟩

/-- The content-stage output for the C9 counterexample input. -/
def cs9 : List Recommendation :=
  [Recommendation.mk (mkBook 2 "P" 100 0) 9, Recommendation.mk (mkBook 3 "Q" 0 0) 8,
    Recommendation.mk (mkBook 4 "P" 10 0) 7, Recommendation.mk (mkBook 5 "P" 0 0) 6,
    Recommendation.mk (mkBook 6 "Q" 0 0) 5]

/-- The diversified content list for the C9 counterexample input. -/
def div9 : List Recommendation :=
  [Recommendation.mk (mkBook 2 "P" 100 0) 9, Recommendation.mk (mkBook 3 "Q" 0 0) 8]

/-- Catalog for the C10 counterexample: contains a book with id 0. -/
def books10 : List Book := [mkBook 0 "H" 10 0, mkBook 1 "K" 1 0]

/-! Helper lemmas about the embedded stages. -/

theorem getD_mem_of_lt {α : Type} (l : List α) (i : Nat) (d : α) (h : i < l.length) :
    l.getD i d ∈ l := by
  induction l generalizing i with
  | nil => simp at h
  | cons a as ih =>
    cases i with
    | zero => simp
    | succ k =>
      simp only [List.getD_cons_succ]
      exact List.mem_cons_of_mem _ (ih k (by simpa using h))

theorem mem_collectRecs {books_df : List (Nat × Book)} {inter : List Int} {n : Nat} :
    ∀ {l : List (Nat × ℚ)} {acc : List Recommendation} {r : Recommendation},
      r ∈ collectRecs books_df inter n l acc →
      r ∈ acc ∨ ∃ p ∈ l, r = Recommendation.mk (books_df.getD p.1 default).2 p.2 ∧
        (books_df.getD p.1 default).2.id ∉ inter := by
  intro l
  induction l with
  | nil =>
    intro acc r h
    exact Or.inl (by simpa [collectRecs] using h)
  | cons p rest ih =>
    intro acc r h
    rw [collectRecs] at h
    by_cases hid : (books_df.getD p.1 default).2.id ∈ inter
    · rw [if_pos hid] at h
      rcases ih h with h | ⟨q, hq, he, hni⟩
      · exact Or.inl h
      · exact Or.inr ⟨q, List.mem_cons_of_mem _ hq, he, hni⟩
    · rw [if_neg hid] at h
      by_cases hn : n ≤ (acc ++ [Recommendation.mk (books_df.getD p.1 default).2 p.2]).length
      · rw [if_pos hn] at h
        rcases List.mem_append.1 h with h | h
        · exact Or.inl h
        · refine Or.inr ⟨p, List.mem_cons_self _ _, ?_, hid⟩
          simpa using h
      · rw [if_neg hn] at h
        rcases ih h with h | ⟨q, hq, he, hni⟩
        · rcases List.mem_append.1 h with h | h
          · exact Or.inl h
          · refine Or.inr ⟨p, List.mem_cons_self _ _, ?_, hid⟩
            simpa using h
        · exact Or.inr ⟨q, List.mem_cons_of_mem _ hq, he, hni⟩

theorem mem_content_ok {S : Nat → Nat → ℚ} {p : UserProfile} {books_df : List (Nat × Book)}
    {n : Nat} {recs : List Recommendation} {r : Recommendation}
    (h : get_content_based_recommendations S p books_df n = .ok recs) (hr : r ∈ recs) :
    ∃ j, j < books_df.length ∧ r.book = (books_df.getD j default).2 ∧
      r.score = contentScores S p books_df j ∧
      r.book.id ∉ (p.liked_books ++ p.disliked_books).map (fun b => b.id) := by
  unfold get_content_based_recommendations at h
  split at h
  · cases h; cases hr
  · split at h
    · cases h; cases hr
    · split at h
      · cases h
      · split at h
        · cases h
        · cases h
          rcases mem_collectRecs hr with h | ⟨q, hq, he, hni⟩
          · cases h
          · have hq2 := (List.perm_insertionSort simRank _).mem_iff.1 hq
            rcases List.mem_map.1 hq2 with ⟨j, hj, he2⟩
            subst he2
            subst he
            exact ⟨j, List.mem_range.1 hj, rfl, rfl, hni⟩

theorem diversifyGo_sublist (m : Nat) :
    ∀ (l : List Recommendation) (cnt : String → Nat), (diversifyGo m l cnt).Sublist l := by
  intro l
  induction l with
  | nil => intro cnt; simp [diversifyGo]
  | cons b rest ih =>
    intro cnt
    rw [diversifyGo]
    by_cases h : cnt b.book.author < m
    · simpa [h] using (ih _).cons₂ b
    · simpa [h] using (ih cnt).cons b

theorem diversify_sublist (l : List Recommendation) :
    (diversify_recommendations l).Sublist l := by
  unfold diversify_recommendations
  split
  · exact List.Sublist.refl l
  · exact diversifyGo_sublist _ l _

theorem mem_pop {books : List Book} {n : Nat} {r : Recommendation}
    (h : r ∈ get_popularity_based_recommendations books n) :
    r.book ∈ books ∧ r.score = popularity_score r.book := by
  unfold get_popularity_based_recommendations at h
  rcases List.mem_map.1 h with ⟨p, hp, he⟩
  have hp2 : p ∈ popRanked books := (List.take_sublist _ _).subset hp
  have hp3 := (List.perm_insertionSort popRank _).mem_iff.1 hp2
  rcases List.mem_map.1 hp3 with ⟨i, hi, he2⟩
  constructor
  · rw [← he, ← he2]
    exact getD_mem_of_lt books i default (List.mem_range.1 hi)
  · rw [← he]

theorem mem_activeBranch {F : FeatureStage} {p : UserProfile} {books_df : List (Nat × Book)}
    {n : Nat} {recs : List Recommendation} {r : Recommendation}
    (h : activeBranch F p books_df n = .ok recs) (hr : r ∈ recs) :
    r.book ∈ books_df.map (fun x => x.2) := by
  unfold activeBranch at h
  cases hF : F (books_df.map (fun x => x.2)) with
  | error e => simp only [hF] at h; cases h
  | ok S =>
    simp only [hF] at h
    cases hc : get_content_based_recommendations S p books_df (n * 2) with
    | error e => simp only [hc] at h; cases h
    | ok cs =>
      simp only [hc] at h
      cases h
      have hdiv : ∀ r2 : Recommendation, r2 ∈ diversify_recommendations cs →
          r2.book ∈ books_df.map (fun x => x.2) := by
        intro r2 hr2
        have hr3 := (diversify_sublist cs).subset hr2
        rcases mem_content_ok hc hr3 with ⟨j, hj, hb, _, _⟩
        rw [hb]
        exact List.mem_map.2 ⟨books_df.getD j default, getD_mem_of_lt _ j default hj, rfl⟩
      split at hr
      · rcases List.mem_append.1 hr with hr | hr
        · exact hdiv r hr
        · have := List.mem_filter.1 hr
          exact (mem_pop this.1).1
      · exact hdiv r hr

theorem mem_get_recommendations {F : FeatureStage} {books : List Book}
    {fa : Except String Activity} {c : Option Int} {n : Nat} {r : Recommendation}
    (h : r ∈ (get_recommendations F (.ok books) fa c n).recommendations) :
    r.book ∈ (applyExclude books c).map (fun x => x.2) := by
  simp only [get_recommendations] at h
  by_cases hE : books.isEmpty
  · simp [hE] at h
  · rw [if_neg (by simpa using hE)] at h
    cases fa with
    | error e => simp at h
    | ok ua =>
      cases hP : calculate_user_profile ua with
      | none =>
        simp only [hP] at h
        exact (mem_pop ((List.take_sublist _ _).subset h)).1
      | some p =>
        simp only [hP] at h
        by_cases hA : p.liked_books ≠ [] ∨ p.rated_books ≠ []
        · rw [if_pos hA] at h
          cases hAB : activeBranch F p (applyExclude books c) n with
          | error e => simp only [hAB] at h; simp at h
          | ok recs =>
            simp only [hAB] at h
            exact mem_activeBranch hAB ((List.take_sublist _ _).subset h)
        · rw [if_neg hA] at h
          exact (mem_pop ((List.take_sublist _ _).subset h)).1

theorem take_length_le_n {α : Type} (n : Nat) (l : List α) : (l.take n).length ≤ n := by
  rw [List.length_take]
  exact min_le_left _ _

theorem pop_length_le (books : List Book) (n : Nat) :
    (get_popularity_based_recommendations books n).length ≤ n := by
  unfold get_popularity_based_recommendations
  rw [List.length_map]
  exact take_length_le_n _ _

theorem mem_applyExclude_ne {books : List Book} {v : Int} {b : Book} (hv : v ≠ 0)
    (h : b ∈ (applyExclude books (some v)).map (fun x => x.2)) : b.id ≠ v := by
  simp only [applyExclude] at h
  rw [if_neg hv] at h
  rcases List.mem_map.1 h with ⟨x, hx, he⟩
  have hp := (List.mem_filter.1 hx).2
  rw [← he]
  simpa using hp

theorem diversifyGo_count (m : Nat) :
    ∀ (l : List Recommendation) (cnt : String → Nat) (a : String),
      ((diversifyGo m l cnt).map (fun r => r.book.author)).count a ≤ m - cnt a := by
  intro l
  induction l with
  | nil => intro cnt a; simp [diversifyGo]
  | cons b rest ih =>
    intro cnt a
    rw [diversifyGo]
    by_cases h : cnt b.book.author < m
    · rw [if_pos h]
      by_cases ha : a = b.book.author
      · subst ha
        have hIH := ih (fun x => if x = b.book.author then cnt b.book.author + 1 else cnt x)
          b.book.author
        simp at hIH
        simp only [List.map_cons, List.count_cons, beq_self_eq_true, if_true]
        omega
      · have hIH := ih (fun x => if x = b.book.author then cnt b.book.author + 1 else cnt x) a
        simp only [if_neg ha] at hIH
        have hbe : (b.book.author == a) = false := beq_eq_false_iff_ne.2 (fun he => ha he.symm)
        simpa [List.count_cons, hbe] using hIH
    · rw [if_neg h]
      exact ih cnt a

theorem indexFrom_length (books : List Book) :
    ∀ k, (indexFrom k books).length = books.length := by
  induction books with
  | nil => intro k; rfl
  | cons b bs ih => intro k; simp [indexFrom, ih]

theorem indexFrom_getD (books : List Book) :
    ∀ k j, j < books.length →
      (indexFrom k books).getD j default = (k + j, books.getD j default) := by
  induction books with
  | nil => intro k j h; simp at h
  | cons b bs ih =>
    intro k j h
    cases j with
    | zero => simp [indexFrom]
    | succ m =>
      simp only [indexFrom, List.getD_cons_succ]
      rw [ih (k + 1) m (by simpa using h)]
      have hk : k + 1 + m = k + (m + 1) := by omega
      rw [hk]

theorem find_label_indexFrom (i : Int) (books : List Book) :
    ∀ k, ((indexFrom k books).find? (fun x => x.2.id == i)).map (fun x => x.1)
      = rowOfAux i books k := by
  induction books with
  | nil => intro k; rfl
  | cons b bs ih =>
    intro k
    by_cases h : b.id = i
    · simp [indexFrom, List.find?, h, rowOfAux]
    · simp only [indexFrom, rowOfAux, if_neg h]
      rw [← ih (k + 1)]
      have hbe : (b.id == i) = false := beq_eq_false_iff_ne.2 h
      simp [List.find?, hbe]

theorem contentLabels_indexedCatalog (books : List Book) (bs : List BookInfo) :
    contentLabels (indexedCatalog books) bs = bs.filterMap (fun b => rowOf books b.id) := by
  unfold contentLabels indexedCatalog rowOf
  induction bs with
  | nil => rfl
  | cons b rest ih =>
    simp only [List.filterMap_cons]
    rw [find_label_indexFrom b.id books 0, ih]

theorem contentScores_indexedCatalog (S : Nat → Nat → ℚ) (p : UserProfile)
    (books : List Book) (j : Nat) :
    contentScores S p (indexedCatalog books) j = spec_content_score S p books j := by
  unfold contentScores spec_content_score
  rw [contentLabels_indexedCatalog, contentLabels_indexedCatalog]

/-! Claim theorems. -/

/-- Claim C1 (corrected): the interaction-exclusion invariant holds on the
content-based stage and survives the diversity filter — no record
produced by `get_content_based_recommendations` (then diversified)
carries an identifier from the profile's liked or disliked sets.  The
popularity fallback and the popularity top-up do *not* filter interacted
identifiers, so the invariant fails on those paths (see the
counterexample). -/
theorem C1_content_exclusion (S : Nat → Nat → ℚ) (p : UserProfile)
    (books_df : List (Nat × Book)) (n : Nat) (recs : List Recommendation)
    (h : get_content_based_recommendations S p books_df n = .ok recs)
    (r : Recommendation) (hr : r ∈ diversify_recommendations recs) :
    r.book.id ∉ (p.liked_books ++ p.disliked_books).map (fun b => b.id) := by
  have hr2 := (diversify_sublist recs).subset hr
  rcases mem_content_ok h hr2 with ⟨j, _, _, _, hni⟩
  exact hni

/-- Witness for C1: a concrete run of the content stage plus diversity
filter whose single output record's id (2) is outside the interacted ids
([1]). -/
theorem C1_content_exclusion_witness :
    (Recommendation.mk (mkBook 2 "K" 1 0) 0).book.id ∉
      (demoProfile.liked_books ++ demoProfile.disliked_books).map (fun b => b.id) :=
  C1_content_exclusion S0 demoProfile
    (indexedCatalog [mkBook 1 "H" 10 5, mkBook 2 "K" 1 0]) 4
    [Recommendation.mk (mkBook 2 "K" 1 0) 0] (by with_unfolding_all rfl)
    (Recommendation.mk (mkBook 2 "K" 1 0) 0) (of_decide_eq_true (by with_unfolding_all rfl))

/-- Counterexample to C1 as stated: a user whose only activity is a
dislike of book 1 is routed to the popularity fallback (no liked or rated
books), and the fallback returns the disliked book 1 in the final list. -/
theorem C1_counterexample :
    (1 : Int) ∈ (get_recommendations F0 (.ok [mkBook 1 "H" 10 5, mkBook 2 "K" 1 0])
        (.ok ⟨[mkLikeRow 1 "dislike"], [], none⟩) none 2).recommendations.map
      (fun r => r.book.id) ∧
    (1 : Int) ∈ profileDislikedIds ⟨[mkLikeRow 1 "dislike"], [], none⟩ :=
  ⟨of_decide_eq_true (by with_unfolding_all rfl),
    of_decide_eq_true (by with_unfolding_all rfl)⟩

/-- Claim C2 (confirmed): on every path — repository error, empty
catalog, cold start, content-based with or without top-up, and the
error paths raised inside the pipeline (feature-builder ValueError,
stale-label IndexError) — the returned recommendation list has length at
most the requested count. -/
theorem C2_length_bound (F : FeatureStage) (fb : Except String (List Book))
    (fa : Except String Activity) (c : Option Int) (n : Nat) :
    (get_recommendations F fb fa c n).recommendations.length ≤ n := by
  cases fb with
  | error e => simp [get_recommendations]
  | ok books =>
    simp only [get_recommendations]
    by_cases hE : books.isEmpty
    · simp [hE]
    · rw [if_neg (by simpa using hE)]
      cases fa with
      | error e => simp
      | ok ua =>
        cases hP : calculate_user_profile ua with
        | none =>
          simp only [hP]
          exact take_length_le_n _ _
        | some p =>
          simp only [hP]
          by_cases hA : p.liked_books ≠ [] ∨ p.rated_books ≠ []
          · rw [if_pos hA]
            cases hAB : activeBranch F p (applyExclude books c) n with
            | error e => simp [hAB]
            | ok recs =>
              simp only [hAB]
              exact take_length_le_n _ _
          · rw [if_neg hA]
            exact take_length_le_n _ _

/-- Claim C4 (code_bug): evaluating `calculate_user_profile` at the
activity of a user with no like, no dislike and no rating record returns
a *present* profile whose liked/disliked/rated lists are all empty, not
`None`: the guard `if not user_activity` tests the 3-tuple
`(likes_data, reviews_data, profile_data)`, which is always truthy. -/
theorem C4_profile_present :
    calculate_user_profile ⟨[], [], none⟩ = some ⟨[], [], [], none⟩ :=
  rfl

/-- Claim C5 (corrected): lists of input length ≤ 3 bypass the diversity
filter; the output is a subsequence of the input; and no author occurs in
the output more than `max 1 (⌊0.3 × N⌋)` times where `N` is the *input*
list length (the code computes `max_per_author` from
`len(recommendations)`, the input).  The bound of the claim as stated —
with the *output* length `L` in place of `N` — is false, see the
counterexample. -/
theorem C5_diversity (recs : List Recommendation) :
    (recs.length ≤ 3 → diversify_recommendations recs = recs) ∧
    (diversify_recommendations recs).Sublist recs ∧
    (3 < recs.length → ∀ a : String,
      ((diversify_recommendations recs).map (fun r => r.book.author)).count a
        ≤ max 1 (3 * recs.length / 10)) := by
  refine ⟨?_, diversify_sublist recs, ?_⟩
  · intro h
    unfold diversify_recommendations
    rw [if_pos h]
  · intro h a
    unfold diversify_recommendations
    rw [if_neg (by omega)]
    simpa using diversifyGo_count (max 1 (3 * recs.length / 10)) recs (fun _ => 0) a

/-- Witness for C5: the input-length bound instantiated on the concrete
ten-item single-author list. -/
theorem C5_diversity_witness :
    ((diversify_recommendations tenSameAuthor).map (fun r => r.book.author)).count "X"
      ≤ max 1 (3 * tenSameAuthor.length / 10) :=
  (C5_diversity tenSameAuthor).2.2 (of_decide_eq_true (by with_unfolding_all rfl)) "X"

/-- Counterexample to C5 as stated: on a ten-item single-author input the
diversified output has length `L = 3`, the claimed bound is
`max 1 (⌊0.3 × 3⌋) = 1`, yet the author occurs 3 times. -/
theorem C5_counterexample :
    max 1 (3 * (diversify_recommendations tenSameAuthor).length / 10) = 1 ∧
    1 < ((diversify_recommendations tenSameAuthor).map (fun r => r.book.author)).count "X" :=
  ⟨by with_unfolding_all rfl, of_decide_eq_true (by with_unfolding_all rfl)⟩

/-- Claim C3 (corrected): `get_recommendations` returns an error payload
iff a repository fetch fails, *or* the feature builder raises on the
working rows (`TfidfVectorizer(min_df=2, max_df=0.8)` raises ValueError
deterministically on a working catalog of at most 2 rows, and whenever
the pruned vocabulary is empty), *or* the content stage raises the numpy
IndexError (a pandas-label out of the row range of the filtered
similarity matrix, possible only when an `excludeItemId` filtered the
catalog).  "No data" conditions — empty catalog, cold-start profile —
return plain lists with no error, but the claimed "only if the
repository fails" direction is false, see the counterexample. -/
theorem C3_error_iff (F : FeatureStage) (fb : Except String (List Book))
    (fa : Except String Activity) (c : Option Int) (n : Nat) :
    (get_recommendations F fb fa c n).error ≠ none ↔
      ((∃ e, fb = .error e) ∨
        ∃ books, fb = .ok books ∧ books ≠ [] ∧
          ((∃ e, fa = .error e) ∨
            ∃ ua p, fa = .ok ua ∧ calculate_user_profile ua = some p ∧
              (p.liked_books ≠ [] ∨ p.rated_books ≠ []) ∧
              ((∃ e, F ((applyExclude books c).map (fun x => x.2)) = .error e) ∨
                ∃ S, F ((applyExclude books c).map (fun x => x.2)) = .ok S ∧
                  ∃ e, get_content_based_recommendations S p (applyExclude books c) (n * 2)
                    = .error e))) := by
  cases fb with
  | error e => simp [get_recommendations]
  | ok books =>
    simp only [get_recommendations]
    by_cases hE : books.isEmpty
    · have hbe : books = [] := by simpa [List.isEmpty_iff] using hE
      subst hbe
      simp
    · rw [if_neg (by simpa using hE)]
      have hbne : books ≠ [] := by simpa [List.isEmpty_iff] using hE
      cases fa with
      | error e => simp [hbne]
      | ok ua =>
        cases hP : calculate_user_profile ua with
        | none => simp [hP, hbne]
        | some p =>
          by_cases hA : p.liked_books ≠ [] ∨ p.rated_books ≠ []
          · simp only [hP]
            rw [if_pos hA]
            cases hF : F ((applyExclude books c).map (fun x => x.2)) with
            | error e =>
              simp only [activeBranch, hF]
              simp [hF, hbne, hP, hA]
            | ok S =>
              cases hc : get_content_based_recommendations S p (applyExclude books c)
                  (n * 2) with
              | error e =>
                simp only [activeBranch, hF, hc]
                simp [hF, hc, hbne, hP, hA]
              | ok cs =>
                simp only [activeBranch, hF, hc]
                simp [hF, hc, hbne, hP, hA]
          · simp only [hP]
            rw [if_neg hA]
            rw [not_or] at hA
            obtain ⟨h1, h2⟩ := hA
            simp only [ne_eq, not_not] at h1 h2
            simp [hP, hbne, h1, h2]

/-- Counterexample to C3 as stated: both repository fetches succeed (a
two-row catalog; a user who liked book 1), yet the call returns an error
payload: with only 2 working rows, `TfidfVectorizer(min_df=2,
max_df=0.8)` deterministically raises ValueError inside
`create_enhanced_features` (`0.8 × 2 = 1.6 < 2`, sklearn's "max_df
corresponds to < documents than min_df" check), and the broad handler
converts it into an error result — no repository failure, and no
IndexError, is involved. -/
theorem C3_counterexample :
    (get_recommendations Fraise (.ok [mkBook 1 "H" 10 5, mkBook 2 "K" 1 0])
        (.ok ⟨[mkLikeRow 1 "like"], [], none⟩) none 2).error ≠ none :=
  of_decide_eq_true (by with_unfolding_all rfl)

/-- Claim C7 (confirmed): a user whose activity holds no like, no dislike
and no rating record receives exactly the popularity-fallback ranking
over the working catalog, truncated to the requested count (the
truncation is a no-op since the fallback already returns at most `n`
records). -/
theorem C7_cold_start (F : FeatureStage) (books : List Book) (prefs : Option Prefs)
    (c : Option Int) (n : Nat) (hb : books ≠ []) :
    (get_recommendations F (.ok books) (.ok ⟨[], [], prefs⟩) c n).recommendations
      = get_popularity_based_recommendations ((applyExclude books c).map (fun x => x.2)) n := by
  simp only [get_recommendations]
  rw [if_neg (by simpa [List.isEmpty_iff] using hb)]
  have hP : calculate_user_profile ⟨[], [], prefs⟩ = some ⟨[], [], [], prefs⟩ := rfl
  simp only [hP]
  rw [if_neg (by simp)]
  exact List.take_of_length_le (pop_length_le _ _)

/-- Witness for C7: the cold-start equality on a concrete two-book
catalog. -/
theorem C7_cold_start_witness :
    (get_recommendations F0 (.ok [mkBook 1 "H" 10 5, mkBook 2 "K" 1 0]) (.ok ⟨[], [], none⟩)
        none 2).recommendations
      = get_popularity_based_recommendations
          ((applyExclude [mkBook 1 "H" 10 5, mkBook 2 "K" 1 0] none).map (fun x => x.2)) 2 :=
  C7_cold_start F0 [mkBook 1 "H" 10 5, mkBook 2 "K" 1 0] none none 2
    (of_decide_eq_true (by with_unfolding_all rfl))

/-- Claim C8 (confirmed): the popularity score is
`likes × 0.4 + averageRating × likes × 0.6`; an item with zero likes
scores exactly zero whatever its rating; and the fallback output is the
`n`-prefix of a permutation of the indexed catalog sorted by score
descending with ties broken by original position. -/
theorem C8_popularity (b : Book) (books : List Book) (n : Nat) :
    popularity_score b = b.likes * (2/5) + b.avg_rating * b.likes * (3/5) ∧
    (b.likes = 0 → popularity_score b = 0) ∧
    (popRanked books).Perm (popIndexed books) ∧
    List.Sorted popRank (popRanked books) ∧
    get_popularity_based_recommendations books n
      = ((popRanked books).take n).map (fun p => Recommendation.mk p.2 (popularity_score p.2)) := by
  refine ⟨rfl, ?_, List.perm_insertionSort _ _, List.sorted_insertionSort _ _, rfl⟩
  intro h
  unfold popularity_score
  rw [h]
  ring

/-- Witness for C8: a concrete zero-likes book with a high rating scores
zero. -/
theorem C8_popularity_witness : popularity_score (mkBook 9 "Z" 0 7) = 0 :=
  (C8_popularity (mkBook 9 "Z" 0 7) [] 0).2.1 rfl

/-- Claim C6 (corrected): on a working catalog whose pandas labels agree
with the similarity-matrix row positions (the unfiltered `indexedCatalog`
frame), the content scorer is exactly as claimed: an empty liked set
yields an empty list, and every returned record's score is the mean
similarity to the liked items' rows minus `0.3 ×` the disliked-affinity
when disliked items are present (the liked-affinity alone otherwise) —
`spec_content_score` spells out that reading.  As stated, over every
working catalog, the claim is false: after an `excludeItemId` filtered
the frame, the code indexes the similarity matrix with stale labels, see
the counterexample. -/
theorem C6_content_scores (S : Nat → Nat → ℚ) (p : UserProfile) (books : List Book) (n : Nat) :
    (p.liked_books = [] →
      get_content_based_recommendations S p (indexedCatalog books) n = .ok []) ∧
    (∀ recs, get_content_based_recommendations S p (indexedCatalog books) n = .ok recs →
      ∀ r ∈ recs, ∃ j, j < books.length ∧ r.book = books.getD j default ∧
        r.score = spec_content_score S p books j) := by
  constructor
  · intro h
    unfold get_content_based_recommendations
    rw [if_pos h]
  · intro recs h r hr
    rcases mem_content_ok h hr with ⟨j, hj, hb, hs, _⟩
    have hj2 : j < books.length := by
      rwa [indexedCatalog, indexFrom_length books 0] at hj
    refine ⟨j, hj2, ?_, ?_⟩
    · rw [hb, indexedCatalog, indexFrom_getD books 0 j hj2]
    · rw [hs, contentScores_indexedCatalog]

/-- Witness for C6: on an unfiltered two-book catalog with liked book 1,
the single returned record is the row-1 book carrying the claimed
score. -/
theorem C6_content_scores_witness :
    ∃ j, j < ([mkBook 1 "H" 10 5, mkBook 2 "K" 1 0] : List Book).length ∧
      (Recommendation.mk (mkBook 2 "K" 1 0) 0).book
        = ([mkBook 1 "H" 10 5, mkBook 2 "K" 1 0] : List Book).getD j default ∧
      (Recommendation.mk (mkBook 2 "K" 1 0) 0).score
        = spec_content_score S0 demoProfile [mkBook 1 "H" 10 5, mkBook 2 "K" 1 0] j :=
  (C6_content_scores S0 demoProfile [mkBook 1 "H" 10 5, mkBook 2 "K" 1 0] 4).2
    [Recommendation.mk (mkBook 2 "K" 1 0) 0] (by with_unfolding_all rfl)
    (Recommendation.mk (mkBook 2 "K" 1 0) 0) (of_decide_eq_true (by with_unfolding_all rfl))

/-- Counterexample to C6 as stated: catalog of four books, id 2 excluded,
user liked the book with id 3.  The code returns the row-2 book (id 4)
with score 22 = mean of matrix row 2 — the stale pandas label of the
liked book — whereas the claimed formula (mean similarity to the liked
item's own row, position 1 in the working catalog) gives 12. -/
theorem C6_counterexample :
    (get_content_based_recommendations S6 p6 (applyExclude books6 (some 2)) 6).toOption.getD []
      = [Recommendation.mk (mkBook 4 "D" 4 0) 22, Recommendation.mk (mkBook 1 "A" 1 0) 20] ∧
    ((applyExclude books6 (some 2)).map (fun x => x.2)).getD 2 default = mkBook 4 "D" 4 0 ∧
    spec_content_score S6 p6 ((applyExclude books6 (some 2)).map (fun x => x.2)) 2 = 12 ∧
    (22 : ℚ) ≠ 12 :=
  ⟨by with_unfolding_all rfl, by with_unfolding_all rfl, by with_unfolding_all rfl,
    of_decide_eq_true (by with_unfolding_all rfl)⟩

/-- Claim C9 (corrected): when the diversified content list has
`m < n` items, the blend appends the *subset* of the top `n − m`
popularity records whose identifiers are not among the content
identifiers: no appended record duplicates a content identifier, at most
`n − m` records are appended, but when some of the top `n − m` popularity
records duplicate content identifiers the final list stays shorter than
`n` even on a large catalog (the claimed "exactly `n − m` appended,
final list exactly `n`" fails, see the counterexample). -/
theorem C9_topup (F : FeatureStage) (S : Nat → Nat → ℚ) (books : List Book) (ua : Activity)
    (c : Option Int) (n : Nat) (p : UserProfile) (cs : List Recommendation)
    (hb : books ≠ [])
    (hp : calculate_user_profile ua = some p)
    (hact : p.liked_books ≠ [] ∨ p.rated_books ≠ [])
    (hF : F ((applyExclude books c).map (fun x => x.2)) = .ok S)
    (hc : get_content_based_recommendations S p (applyExclude books c) (n * 2) = .ok cs)
    (hm : (diversify_recommendations cs).length < n) :
    (get_recommendations F (.ok books) (.ok ua) c n).recommendations
      = (diversify_recommendations cs ++ (get_popularity_based_recommendations
            ((applyExclude books c).map (fun x => x.2))
            (n - (diversify_recommendations cs).length)).filter
          (fun pr => decide (pr.book.id ∉
            (diversify_recommendations cs).map (fun r => r.book.id)))).take n ∧
    (∀ r ∈ (get_popularity_based_recommendations ((applyExclude books c).map (fun x => x.2))
          (n - (diversify_recommendations cs).length)).filter
        (fun pr => decide (pr.book.id ∉
          (diversify_recommendations cs).map (fun r => r.book.id))),
      r.book.id ∉ (diversify_recommendations cs).map (fun r => r.book.id)) ∧
    ((get_popularity_based_recommendations ((applyExclude books c).map (fun x => x.2))
        (n - (diversify_recommendations cs).length)).filter
      (fun pr => decide (pr.book.id ∉
        (diversify_recommendations cs).map (fun r => r.book.id)))).length
      ≤ n - (diversify_recommendations cs).length := by
  refine ⟨?_, ?_, ?_⟩
  · simp only [get_recommendations]
    rw [if_neg (by simpa [List.isEmpty_iff] using hb)]
    simp only [hp]
    rw [if_pos hact]
    simp only [activeBranch, hF, hc]
    rw [if_pos hm]
  · intro r hr
    simpa using (List.mem_filter.1 hr).2
  · exact le_trans (List.length_filter_le _ _) (pop_length_le _ _)

/-- Witness for C9: the at-most-`n − m` bound instantiated on the
concrete six-book catalog. -/
theorem C9_topup_witness :
    ((get_popularity_based_recommendations ((applyExclude books9 none).map (fun x => x.2))
        (5 - (diversify_recommendations cs9).length)).filter
      (fun pr => decide (pr.book.id ∉
        (diversify_recommendations cs9).map (fun r => r.book.id)))).length
      ≤ 5 - (diversify_recommendations cs9).length :=
  (C9_topup F9 S9 books9 act9 none 5 p9 cs9
    (of_decide_eq_true (by with_unfolding_all rfl))
    (by with_unfolding_all rfl)
    (Or.inl (of_decide_eq_true (by with_unfolding_all rfl)))
    (by with_unfolding_all rfl)
    (by with_unfolding_all rfl)
    (of_decide_eq_true (by with_unfolding_all rfl))).2.2

/-- Counterexample to C9 as stated: requested count 5, six-book catalog,
diversified content stage yields 2 items, yet the final blended list has
4 items, not 5 — the top-3 popularity records include the already-present
id 2, which the dedup step drops without fetching a replacement. -/
theorem C9_counterexample :
    (get_recommendations F9 (.ok books9) (.ok act9) none 5).recommendations.length = 4 ∧
    (diversify_recommendations cs9).length = 2 ∧
    books9.length = 6 :=
  ⟨by with_unfolding_all rfl, by with_unfolding_all rfl, by with_unfolding_all rfl⟩

/-- Claim C10 (corrected): when a *non-zero* `current_book_id` is
supplied, no returned record carries that identifier, on every path —
the row is filtered from the working catalog before any scoring stage.
For the supplied value 0 the Python guard `if current_book_id:` is falsy
and the filter is skipped, so a catalog book with id 0 can be returned,
see the counterexample. -/
theorem C10_exclude (F : FeatureStage) (books : List Book) (fa : Except String Activity)
    (v : Int) (n : Nat) (hv : v ≠ 0) (r : Recommendation)
    (hr : r ∈ (get_recommendations F (.ok books) fa (some v) n).recommendations) :
    r.book.id ≠ v :=
  mem_applyExclude_ne hv (mem_get_recommendations hr)

/-- Witness for C10: with `current_book_id = 7` the only returned record
is the id-1 book, whose id differs from 7. -/
theorem C10_exclude_witness :
    (Recommendation.mk (mkBook 1 "K" 5 0) 2).book.id ≠ 7 :=
  C10_exclude F0 [mkBook 7 "H" 1 0, mkBook 1 "K" 5 0] (.ok ⟨[], [], none⟩) 7 2
    (of_decide_eq_true (by with_unfolding_all rfl))
    (Recommendation.mk (mkBook 1 "K" 5 0) 2)
    (of_decide_eq_true (by with_unfolding_all rfl))

/-- Counterexample to C10 as stated: `current_book_id = 0` is supplied,
the catalog holds a (popular) book with id 0, and that book appears in
the result — the truthiness guard skips the exclusion filter for 0. -/
theorem C10_counterexample :
    (0 : Int) ∈ (get_recommendations F0 (.ok books10) (.ok ⟨[], [], none⟩) (some 0)
        2).recommendations.map (fun r => r.book.id) :=
  of_decide_eq_true (by with_unfolding_all rfl)
